import Mathlib

/-
Verification of the template-rendering engine of worldsgame/chronicle
(src/newspaper/build.js).

The engine is embedded shallowly: the JavaScript value universe that the
renderer consumes (parsed JSON content trees, plus the built-in values
reachable from them by property access) is the inductive type `JSValue`;
the two regex-driven replacement passes of `render` and the dotted-path
lookup `getNestedValue` are translated into executable recursive
scanners over `List Char`.

Property access `current[key]` (build.js line 68) is modeled faithfully
for the runtime (Node.js / V8, ES2024): own entries of mappings shadow
the inherited Object.prototype members; strings and arrays expose their
length and canonical numeric indices and then their prototype methods;
numbers and booleans expose their prototype methods; the inherited
members themselves are function values carrying their name and length,
and the __proto__ accessor yields the built-in prototype objects.
Boundary of the model, documented here once: static members of the six
constructor functions (such as Object.keys), the poison-pill
caller/arguments accessors of Function.prototype (whose access throws
in the runtime), symbol-keyed members, and the stringification of
Number.prototype and Boolean.prototype (which throws) are not modeled;
no theorem below quantifies over those reflective paths.  String length
and indices are modeled per code point (the runtime counts UTF-16
units; they agree on the Basic Multilingual Plane).

Recursion of the JavaScript `render` into sub-contexts terminates
because every recursive call renders a strictly shorter body, with a
context that is either a sub-value of the data tree or a size-one
built-in value; the embedded `render` therefore uses
`jsSize data + template length + 1` as fuel, which is always adequate.
-/

set_option maxRecDepth 20000
set_option maxHeartbeats 1000000

namespace Chronicle

/-- The built-in prototype objects reachable from context values via
the __proto__ accessor or a constructor's prototype property. -/
inductive ProtoKind : Type where
  | objectP : ProtoKind
  | stringP : ProtoKind
  | numberP : ProtoKind
  | booleanP : ProtoKind
  | arrayP : ProtoKind
  | functionP : ProtoKind

/-- A JavaScript value as the renderer can encounter it: the context is
a tree of strings, numbers, booleans, null, mappings and ordered
sequences (parsed JSON), and property access can additionally reach
built-in functions (carrying their name and length) and the built-in
prototype objects.  Numbers are embedded as integers, which covers
every numeric value the build pipeline feeds to the renderer. -/
inductive JSValue : Type where
  | str : String → JSValue
  | num : Int → JSValue
  | bool : Bool → JSValue
  | null : JSValue
  | obj : List (String × JSValue) → JSValue
  | arr : List JSValue → JSValue
  | fn : String → Nat → JSValue
  | protoObj : ProtoKind → JSValue

mutual

/-- Structural size of a context value; bounds the recursion depth of
the renderer and the nesting depth of sequences. -/
def jsSize : JSValue → Nat
  | .str _ => 1
  | .num _ => 1
  | .bool _ => 1
  | .null => 1
  | .obj fs => jsSizeFields fs + 1
  | .arr items => jsSizeItems items + 1
  | .fn _ _ => 1
  | .protoObj _ => 1

/-- Structural size of a field list. -/
def jsSizeFields : List (String × JSValue) → Nat
  | [] => 0
  | f :: rest => jsSize f.2 + jsSizeFields rest + 1

/-- Structural size of an element list. -/
def jsSizeItems : List JSValue → Nat
  | [] => 0
  | v :: rest => jsSize v + jsSizeItems rest + 1

end

/-- The character class of the JavaScript regex token \s; \S is its
negation.  Used by the non-greedy key pattern \S+? of both template
regexes in build.js. -/
def isJsSpace (c : Char) : Bool :=
  decide (c.toNat = 9 ∨ c.toNat = 10 ∨ c.toNat = 11 ∨ c.toNat = 12 ∨ c.toNat = 13 ∨
    c.toNat = 32 ∨ c.toNat = 160 ∨ c.toNat = 0x1680 ∨
    (0x2000 ≤ c.toNat ∧ c.toNat ≤ 0x200a) ∨ c.toNat = 0x2028 ∨ c.toNat = 0x2029 ∨
    c.toNat = 0x202f ∨ c.toNat = 0x205f ∨ c.toNat = 0x3000 ∨ c.toNat = 0xfeff)

/-- JavaScript truthiness of a context value (`if (value)` in build.js
line 44): false, 0, null and the empty string are falsy; every mapping,
sequence (including the empty one), function and prototype object is
truthy. -/
def jsTruthy : JSValue → Bool
  | .str s => !(s == "")
  | .num n => !(n == 0)
  | .bool b => b
  | .null => false
  | .obj _ => true
  | .arr _ => true
  | .fn _ _ => true
  | .protoObj _ => true

/-- Name lookup in a property list: the first entry whose name equals
the key (JavaScript property keys are unique, so first match is the
match).  Used both for the own fields of a mapping and for the built-in
prototype member tables below. -/
def lookupField : List (String × JSValue) → List Char → Option JSValue
  | [], _ => none
  | f :: rest, k => if f.1.toList = k then some f.2 else lookupField rest k

/-- Accumulate decimal digits into a number. -/
def digitsToNatAux (acc : Nat) : List Char → Nat
  | [] => acc
  | c :: rest => digitsToNatAux (acc * 10 + (c.toNat - 48)) rest

/-- A key that is a canonical numeric string ("0", or digits without a
leading zero): only such keys are index properties of strings and
arrays in JavaScript ("ab"["01"] is undefined). -/
def toCanonicalIndex : List Char → Option Nat
  | [] => none
  | [ c ] => if c.isDigit then some (c.toNat - 48) else none
  | c :: rest =>
    if c.isDigit && !(c == '0') && rest.all Char.isDigit then
      some (digitsToNatAux (c.toNat - 48) rest)
    else none

/-- The string-keyed members of Object.prototype (ES2024), each a
built-in function with its name and length; the __proto__ accessor is
handled separately per receiver. -/
def objectProtoMembers : List (String × JSValue) :=
  [(("constructor"), JSValue.fn ("Object") 1),
   (("hasOwnProperty"), JSValue.fn ("hasOwnProperty") 1),
   (("isPrototypeOf"), JSValue.fn ("isPrototypeOf") 1),
   (("propertyIsEnumerable"), JSValue.fn ("propertyIsEnumerable") 1),
   (("toLocaleString"), JSValue.fn ("toLocaleString") 0),
   (("toString"), JSValue.fn ("toString") 0),
   (("valueOf"), JSValue.fn ("valueOf") 0),
   (("__defineGetter__"), JSValue.fn ("__defineGetter__") 2),
   (("__defineSetter__"), JSValue.fn ("__defineSetter__") 2),
   (("__lookupGetter__"), JSValue.fn ("__lookupGetter__") 1),
   (("__lookupSetter__"), JSValue.fn ("__lookupSetter__") 1)]

/-- The string-keyed members of String.prototype (ES2024 including
Annex B), each with its specified length. -/
def stringProtoMembers : List (String × JSValue) :=
  [(("at"), JSValue.fn ("at") 1),
   (("charAt"), JSValue.fn ("charAt") 1),
   (("charCodeAt"), JSValue.fn ("charCodeAt") 1),
   (("codePointAt"), JSValue.fn ("codePointAt") 1),
   (("concat"), JSValue.fn ("concat") 1),
   (("constructor"), JSValue.fn ("String") 1),
   (("endsWith"), JSValue.fn ("endsWith") 1),
   (("includes"), JSValue.fn ("includes") 1),
   (("indexOf"), JSValue.fn ("indexOf") 1),
   (("isWellFormed"), JSValue.fn ("isWellFormed") 0),
   (("lastIndexOf"), JSValue.fn ("lastIndexOf") 1),
   (("localeCompare"), JSValue.fn ("localeCompare") 1),
   (("match"), JSValue.fn ("match") 1),
   (("matchAll"), JSValue.fn ("matchAll") 1),
   (("normalize"), JSValue.fn ("normalize") 0),
   (("padEnd"), JSValue.fn ("padEnd") 1),
   (("padStart"), JSValue.fn ("padStart") 1),
   (("repeat"), JSValue.fn ("repeat") 1),
   (("replace"), JSValue.fn ("replace") 2),
   (("replaceAll"), JSValue.fn ("replaceAll") 2),
   (("search"), JSValue.fn ("search") 1),
   (("slice"), JSValue.fn ("slice") 2),
   (("split"), JSValue.fn ("split") 2),
   (("startsWith"), JSValue.fn ("startsWith") 1),
   (("substr"), JSValue.fn ("substr") 2),
   (("substring"), JSValue.fn ("substring") 2),
   (("toLocaleLowerCase"), JSValue.fn ("toLocaleLowerCase") 0),
   (("toLocaleUpperCase"), JSValue.fn ("toLocaleUpperCase") 0),
   (("toLowerCase"), JSValue.fn ("toLowerCase") 0),
   (("toString"), JSValue.fn ("toString") 0),
   (("toUpperCase"), JSValue.fn ("toUpperCase") 0),
   (("toWellFormed"), JSValue.fn ("toWellFormed") 0),
   (("trim"), JSValue.fn ("trim") 0),
   (("trimEnd"), JSValue.fn ("trimEnd") 0),
   (("trimStart"), JSValue.fn ("trimStart") 0),
   (("valueOf"), JSValue.fn ("valueOf") 0),
   (("anchor"), JSValue.fn ("anchor") 1),
   (("big"), JSValue.fn ("big") 0),
   (("blink"), JSValue.fn ("blink") 0),
   (("bold"), JSValue.fn ("bold") 0),
   (("fixed"), JSValue.fn ("fixed") 0),
   (("fontcolor"), JSValue.fn ("fontcolor") 1),
   (("fontsize"), JSValue.fn ("fontsize") 1),
   (("italics"), JSValue.fn ("italics") 0),
   (("link"), JSValue.fn ("link") 1),
   (("small"), JSValue.fn ("small") 0),
   (("strike"), JSValue.fn ("strike") 0),
   (("sub"), JSValue.fn ("sub") 0),
   (("sup"), JSValue.fn ("sup") 0)]

/-- The string-keyed members of Number.prototype (ES2024). -/
def numberProtoMembers : List (String × JSValue) :=
  [(("constructor"), JSValue.fn ("Number") 1),
   (("toExponential"), JSValue.fn ("toExponential") 1),
   (("toFixed"), JSValue.fn ("toFixed") 1),
   (("toLocaleString"), JSValue.fn ("toLocaleString") 0),
   (("toPrecision"), JSValue.fn ("toPrecision") 1),
   (("toString"), JSValue.fn ("toString") 1),
   (("valueOf"), JSValue.fn ("valueOf") 0)]

/-- The string-keyed members of Boolean.prototype (ES2024). -/
def booleanProtoMembers : List (String × JSValue) :=
  [(("constructor"), JSValue.fn ("Boolean") 1),
   (("toString"), JSValue.fn ("toString") 0),
   (("valueOf"), JSValue.fn ("valueOf") 0)]

/-- The string-keyed members of Array.prototype (ES2024); its own
length property is handled with the receiver. -/
def arrayProtoMembers : List (String × JSValue) :=
  [(("constructor"), JSValue.fn ("Array") 1),
   (("at"), JSValue.fn ("at") 1),
   (("concat"), JSValue.fn ("concat") 1),
   (("copyWithin"), JSValue.fn ("copyWithin") 2),
   (("entries"), JSValue.fn ("entries") 0),
   (("every"), JSValue.fn ("every") 1),
   (("fill"), JSValue.fn ("fill") 1),
   (("filter"), JSValue.fn ("filter") 1),
   (("find"), JSValue.fn ("find") 1),
   (("findIndex"), JSValue.fn ("findIndex") 1),
   (("findLast"), JSValue.fn ("findLast") 1),
   (("findLastIndex"), JSValue.fn ("findLastIndex") 1),
   (("flat"), JSValue.fn ("flat") 0),
   (("flatMap"), JSValue.fn ("flatMap") 1),
   (("forEach"), JSValue.fn ("forEach") 1),
   (("includes"), JSValue.fn ("includes") 1),
   (("indexOf"), JSValue.fn ("indexOf") 1),
   (("join"), JSValue.fn ("join") 1),
   (("keys"), JSValue.fn ("keys") 0),
   (("lastIndexOf"), JSValue.fn ("lastIndexOf") 1),
   (("map"), JSValue.fn ("map") 1),
   (("pop"), JSValue.fn ("pop") 0),
   (("push"), JSValue.fn ("push") 1),
   (("reduce"), JSValue.fn ("reduce") 1),
   (("reduceRight"), JSValue.fn ("reduceRight") 1),
   (("reverse"), JSValue.fn ("reverse") 0),
   (("shift"), JSValue.fn ("shift") 0),
   (("slice"), JSValue.fn ("slice") 2),
   (("some"), JSValue.fn ("some") 1),
   (("sort"), JSValue.fn ("sort") 1),
   (("splice"), JSValue.fn ("splice") 2),
   (("toLocaleString"), JSValue.fn ("toLocaleString") 0),
   (("toReversed"), JSValue.fn ("toReversed") 0),
   (("toSorted"), JSValue.fn ("toSorted") 1),
   (("toSpliced"), JSValue.fn ("toSpliced") 2),
   (("toString"), JSValue.fn ("toString") 0),
   (("unshift"), JSValue.fn ("unshift") 1),
   (("values"), JSValue.fn ("values") 0),
   (("with"), JSValue.fn ("with") 2)]

/-- The string-keyed members of Function.prototype (ES2024); its own
length and name, and the caller/arguments poison-pill accessors (whose
access throws), are handled with the receiver or excluded as
documented above. -/
def functionProtoMembers : List (String × JSValue) :=
  [(("constructor"), JSValue.fn ("Function") 1),
   (("apply"), JSValue.fn ("apply") 2),
   (("bind"), JSValue.fn ("bind") 1),
   (("call"), JSValue.fn ("call") 1),
   (("toString"), JSValue.fn ("toString") 0)]

/-- A member table backed by the inherited Object.prototype members. -/
def memberOrObject (tbl : List (String × JSValue)) (k : List Char) : Option JSValue :=
  match lookupField tbl k with
  | some v => some v
  | none => lookupField objectProtoMembers k

/-- The prototype object owned (via its prototype property) by each of
the six built-in constructors; every other built-in function here is a
method, not a constructor, and has no prototype property. -/
def ctorProtoKind (name : String) : Option ProtoKind :=
  if name = "Object" then some ProtoKind.objectP
  else if name = "String" then some ProtoKind.stringP
  else if name = "Number" then some ProtoKind.numberP
  else if name = "Boolean" then some ProtoKind.booleanP
  else if name = "Array" then some ProtoKind.arrayP
  else if name = "Function" then some ProtoKind.functionP
  else none

/-- `current[key]` of build.js line 68, JavaScript property access:
own properties first (fields of a mapping; length and canonical indices
of strings and arrays; length, name and prototype of functions), then
the __proto__ accessor, then the inherited prototype members down the
prototype chain.  On null the renderer never indexes (the && in line 68
short-circuits on falsy values). -/
def jsProp : JSValue → List Char → Option JSValue
  | .null, _ => none
  | .str s, k =>
    if k = ("length").toList then some (.num s.toList.length)
    else
      match toCanonicalIndex k with
      | some i =>
        if i < s.toList.length then some (.str (String.mk [ s.toList.getD i ' ' ]))
        else none
      | none =>
        if k = ("__proto__").toList then some (.protoObj ProtoKind.stringP)
        else memberOrObject stringProtoMembers k
  | .num _, k =>
    if k = ("__proto__").toList then some (.protoObj ProtoKind.numberP)
    else memberOrObject numberProtoMembers k
  | .bool _, k =>
    if k = ("__proto__").toList then some (.protoObj ProtoKind.booleanP)
    else memberOrObject booleanProtoMembers k
  | .obj fs, k =>
    match lookupField fs k with
    | some v => some v
    | none =>
      if k = ("__proto__").toList then some (.protoObj ProtoKind.objectP)
      else lookupField objectProtoMembers k
  | .arr items, k =>
    if k = ("length").toList then some (.num items.length)
    else
      match toCanonicalIndex k with
      | some i =>
        if i < items.length then some (items.getD i JSValue.null)
        else none
      | none =>
        if k = ("__proto__").toList then some (.protoObj ProtoKind.arrayP)
        else memberOrObject arrayProtoMembers k
  | .fn name arity, k =>
    if k = ("length").toList then some (.num arity)
    else if k = ("name").toList then some (.str name)
    else if k = ("prototype").toList then (ctorProtoKind name).map (fun pk => JSValue.protoObj pk)
    else if k = ("__proto__").toList then some (.protoObj ProtoKind.functionP)
    else memberOrObject functionProtoMembers k
  | .protoObj ProtoKind.objectP, k =>
    if k = ("__proto__").toList then some JSValue.null
    else lookupField objectProtoMembers k
  | .protoObj ProtoKind.stringP, k =>
    if k = ("length").toList then some (.num 0)
    else if k = ("__proto__").toList then some (.protoObj ProtoKind.objectP)
    else memberOrObject stringProtoMembers k
  | .protoObj ProtoKind.numberP, k =>
    if k = ("__proto__").toList then some (.protoObj ProtoKind.objectP)
    else memberOrObject numberProtoMembers k
  | .protoObj ProtoKind.booleanP, k =>
    if k = ("__proto__").toList then some (.protoObj ProtoKind.objectP)
    else memberOrObject booleanProtoMembers k
  | .protoObj ProtoKind.arrayP, k =>
    if k = ("length").toList then some (.num 0)
    else if k = ("__proto__").toList then some (.protoObj ProtoKind.objectP)
    else memberOrObject arrayProtoMembers k
  | .protoObj ProtoKind.functionP, k =>
    if k = ("length").toList then some (.num 0)
    else if k = ("name").toList then some (.str (""))
    else if k = ("__proto__").toList then some (.protoObj ProtoKind.objectP)
    else memberOrObject functionProtoMembers k

/-- `path.split('.')` of build.js line 67 for the one-character
separator '.': splitting on every dot, keeping empty segments, and
producing `[path]` when no dot occurs (never the empty list). -/
def splitDotsL : List Char → List (List Char)
  | [] => [[]]
  | c :: rest =>
    if c = '.' then [] :: splitDotsL rest
    else (c :: (splitDotsL rest).headD []) :: (splitDotsL rest).tail

/-- One step of the reduce in build.js lines 67-69:
`current && current[key] !== undefined ? current[key] : undefined`. -/
def nestedStep (cur : Option JSValue) (k : List Char) : Option JSValue :=
  match cur with
  | some v => if jsTruthy v then jsProp v k else none
  | none => none

/-- The reduce of build.js lines 67-69 over the list of path segments. -/
def resolveSegs : Option JSValue → List (List Char) → Option JSValue
  | cur, [] => cur
  | cur, k :: rest => resolveSegs (nestedStep cur k) rest

/-- `getNestedValue(obj, path)` of build.js lines 66-70: dot-split the
path and reduce over the segments.  `none` is JavaScript `undefined`
("not found"). -/
def getNestedValue (v : JSValue) (path : List Char) : Option JSValue :=
  resolveSegs (some v) (splitDotsL path)

/-- String coercion applied by JavaScript when a looked-up value is
substituted for a placeholder (`String(value)`), with fuel for the
sequence case; `toText` below applies adequate fuel. -/
def toTextF : Nat → JSValue → List Char
  | _, .str s => s.toList
  | _, .num n => (toString n).toList
  | _, .bool b => if b then ("true").toList else ("false").toList
  | _, .null => ("null").toList
  | _, .obj _ => ("[object Object]").toList
  | _, .fn name _ => ("function ").toList ++ name.toList ++ ("() \x7b [native code] \x7d").toList
  | _, .protoObj ProtoKind.objectP => ("[object Object]").toList
  | _, .protoObj ProtoKind.stringP => []
  | _, .protoObj ProtoKind.numberP => ("[object Number]").toList
  | _, .protoObj ProtoKind.booleanP => ("[object Boolean]").toList
  | _, .protoObj ProtoKind.arrayP => []
  | _, .protoObj ProtoKind.functionP =>
    ("function () \x7b [native code] \x7d").toList
  | 0, .arr _ => []
  | f+1, .arr items =>
    match items.map (toTextF f) with
    | [] => []
    | t :: ts => ts.foldl (fun acc u => acc ++ ',' :: u) t

/-- JavaScript string coercion of a value (`String(value)`): strings
as-is, numbers in decimal, booleans as true/false, sequences joined by
commas, mappings as "[object Object]". -/
def toText (v : JSValue) : List Char := toTextF (jsSize v) v

/-- JavaScript replacement-pattern expansion for a string replacement
argument of String.prototype.replace with a group-free pattern:
$$ yields a dollar, $& the matched text, a dollar followed by the
backquote character the portion before the match, $' the portion after
the match; everything else is literal (the pattern has no capture
groups, so $1 and the like stay literal). -/
def expandDollar (matched before after : List Char) : List Char → List Char
  | [] => []
  | c :: r =>
    if c = '$' then
      match r with
      | [] => [ '$' ]
      | d :: r2 =>
        if d = '$' then '$' :: expandDollar matched before after r2
        else if d = '&' then matched ++ expandDollar matched before after r2
        else if d = Char.ofNat 96 then before ++ expandDollar matched before after r2
        else if d = '\'' then after ++ expandDollar matched before after r2
        else '$' :: d :: expandDollar matched before after r2
    else c :: expandDollar matched before after r

/-- The five characters matched by the self-reference pattern of
build.js line 38. -/
def dotPat : List Char := [ '{', '{', '.', '}', '}' ]

/-- The global replace `content.replace(self-reference pattern, item)`
of build.js line 38: scan left to right, and at each match substitute
the replacement string with JavaScript $-expansion, where the before /
after portions refer to the original subject string.  Fuel is the
length of the remaining subject; every step consumes at least one
character, so `dotReplace` below never exhausts it. -/
def dotScan (item : List Char) : List Char → Nat → List Char → List Char
  | _, 0, l => l
  | _, _+1, [] => []
  | before, f+1, c :: rest =>
    if dotPat.isPrefixOf (c :: rest) then
      expandDollar dotPat before ((c :: rest).drop 5) item ++
        dotScan item (before ++ dotPat) f ((c :: rest).drop 5)
    else c :: dotScan item (before ++ [ c ]) f rest

/-- `content.replace(self-reference pattern, item)` of build.js line 38. -/
def dotReplace (body item : List Char) : List Char :=
  dotScan item [] body.length body

/-- Modelled from the spec: the substitution described in section 4.2,
"substitute every self-reference placeholder with the element's textual
form" — each occurrence of the self-reference pattern is replaced by
the element's text taken literally.  This definition follows the
spec's words and is compared against `dotReplace`, the translation of
the source, which instead $-expands the replacement. -/
def substSelf (item : List Char) : Nat → List Char → List Char
  | 0, l => l
  | _+1, [] => []
  | f+1, c :: rest =>
    if dotPat.isPrefixOf (c :: rest) then
      item ++ substSelf item f ((c :: rest).drop 5)
    else c :: substSelf item f rest

/-- Literal (spec-described) counterpart of `dotReplace`. -/
def substSelfAll (body item : List Char) : List Char :=
  substSelf item body.length body

/-- Whether a list starts with two closing braces; the check that ends
the non-greedy key pattern \S+? of both template regexes. -/
def startsBB : List Char → Bool
  | a :: b :: _ => a == '}' && b == '}'
  | _ => false

/-- Non-greedy key match of the variable pattern at the current
position (after the two opening braces): the shortest non-empty run of
non-space characters followed by two closing braces; fails on a space
character or the end of input.  Returns the key and the input after the
two closing braces. -/
def scanKey : List Char → Option (List Char × List Char)
  | [] => none
  | c :: rest =>
    if isJsSpace c then none
    else if startsBB rest then some ([ c ], rest.drop 2)
    else
      match scanKey rest with
      | some p => some (c :: p.1, p.2)
      | none => none

/-- Attempt of the variable pattern of build.js line 54 at the current
position: two opening braces, then a non-greedy non-space key, then two
closing braces. -/
def matchVarAt : List Char → Option (List Char × List Char)
  | '{' :: '{' :: t => scanKey t
  | _ => none

/-- The replacement callback of build.js lines 54-58: the self-reference
key '.' keeps the matched text; otherwise a found value is substituted
by its textual form and a not-found key keeps the matched text. -/
def varRep (data : JSValue) (k : List Char) : List Char :=
  if k = [ '.' ] then '{' :: '{' :: '.' :: '}' :: '}' :: []
  else
    match getNestedValue data k with
    | some v => toText v
    | none => '{' :: '{' :: (k ++ [ '}', '}' ])

/-- The global variable replace of build.js lines 54-58: scan left to
right, splice each match's replacement and continue after the match
(replacements are not rescanned).  Fuel as in `dotScan`. -/
def varScan (data : JSValue) : Nat → List Char → List Char
  | 0, l => l
  | _+1, [] => []
  | f+1, c :: rest =>
    match matchVarAt (c :: rest) with
    | some p => varRep data p.1 ++ varScan data f p.2
    | none => c :: varScan data f rest

/-- The variable pass over a whole template, with adequate fuel. -/
def varScanFull (data : JSValue) (l : List Char) : List Char :=
  varScan data l.length l

/-- The closing tag of a section block for a given key. -/
def closeTag (k : List Char) : List Char :=
  '{' :: '{' :: '/' :: (k ++ [ '}', '}' ])

/-- All candidate keys of the non-greedy \S+? of the section pattern at
the current position, shortest first, each with the input following its
two closing braces: the regex engine tries them in this order and takes
the first one whose closing tag occurs later in the input. -/
def keyCands : List Char → List (List Char × List Char)
  | [] => []
  | c :: rest =>
    if isJsSpace c then []
    else if startsBB rest then
      ([ c ], rest.drop 2) :: (keyCands rest).map (fun p => (c :: p.1, p.2))
    else (keyCands rest).map (fun p => (c :: p.1, p.2))

/-- First occurrence of a pattern in a list: the part before the
occurrence and the part after it.  Realises the non-greedy body
[\s\S]*? followed by the backreferenced closing tag. -/
def splitFirst (pat : List Char) : List Char → Option (List Char × List Char)
  | [] => none
  | c :: rest =>
    if pat.isPrefixOf (c :: rest) then some ([], (c :: rest).drop pat.length)
    else
      match splitFirst pat rest with
      | some p => some (c :: p.1, p.2)
      | none => none

/-- Backtracking over the key candidates: take the first candidate key
whose closing tag occurs in the remaining input, and return the key,
the body (up to the first occurrence of the closing tag) and the input
after the closing tag. -/
def firstClose : List (List Char × List Char) → Option (List Char × List Char × List Char)
  | [] => none
  | (k, after) :: more =>
    match splitFirst (closeTag k) after with
    | some p => some (k, p.1, p.2)
    | none => firstClose more

/-- Attempt of the section pattern of build.js line 31 at the current
position: two opening braces and a hash, then a non-greedy non-space
key, two closing braces, a non-greedy body, and the closing tag for the
same key. -/
def matchSectionAt : List Char → Option (List Char × List Char × List Char)
  | '{' :: '{' :: '#' :: t => firstClose (keyCands t)
  | _ => none

/-- `array.join('\n')` of build.js line 43. -/
def joinNL : List (List Char) → List Char
  | [] => []
  | [ x ] => x
  | x :: y :: rest => x ++ '\n' :: joinNL (y :: rest)

/-- The per-element branch of build.js lines 35-42: string and number
elements get self-reference substitution, all other elements are
rendered recursively with the element as the new context (`rnd` is the
recursive renderer). -/
def secItem (rnd : List Char → JSValue → List Char) (body : List Char) : JSValue → List Char
  | .str s => dotReplace body s.toList
  | .num n => dotReplace body (toString n).toList
  | v => rnd body v

/-- The section replacement callback of build.js lines 31-51: resolve
the key; a sequence maps its elements and joins by newline, a truthy
non-sequence renders the body once recursively, and an absent or falsy
value contributes nothing. -/
def secRep (rnd : List Char → JSValue → List Char) (data : JSValue)
    (k body : List Char) : List Char :=
  match getNestedValue data k with
  | some (.arr items) => joinNL (items.map (secItem rnd body))
  | some (.protoObj ProtoKind.arrayP) => []
  | some v => if jsTruthy v then rnd body v else []
  | none => []

/-- The global section replace of build.js line 31: scan left to right;
at each position try the section pattern, splice the callback's result
and continue after the match (the result is not rescanned), otherwise
advance one character.  Fuel as in `dotScan`. -/
def secScan (rnd : List Char → JSValue → List Char) (data : JSValue) :
    Nat → List Char → List Char
  | 0, l => l
  | _+1, [] => []
  | f+1, c :: rest =>
    match matchSectionAt (c :: rest) with
    | some m => secRep rnd data m.1 m.2.1 ++ secScan rnd data f m.2.2
    | none => c :: secScan rnd data f rest

/-- `render(template, data)` of build.js lines 29-61 with explicit
recursion fuel: the section pass (which recurses into sub-contexts via
`renderF f`) followed by the variable pass over its output. -/
def renderF : Nat → List Char → JSValue → List Char
  | 0, tpl, _ => tpl
  | f+1, tpl, data => varScanFull data (secScan (renderF f) data tpl.length tpl)

/-- `render(template, data)` of build.js lines 29-61.  Every recursive
call of the JavaScript function renders a strictly shorter body, with a
context that is either a sub-value of the data tree or a size-one
built-in value reached by property access, so
`jsSize data + template length + 1` is always adequate fuel. -/
def render (template : String) (data : JSValue) : String :=
  String.mk (renderF (jsSize data + template.toList.length + 1) template.toList data)

/-- A whole template that is a single section block for key `k` with
body `body`. -/
def sectionBlock (k body : List Char) : List Char :=
  '{' :: '{' :: '#' :: (k ++ '}' :: '}' :: (body ++ closeTag k))

/-- String and number elements: the two element kinds that take the
self-reference substitution branch of build.js lines 36-38. -/
def isPrimItem : JSValue → Bool
  | .str _ => true
  | .num _ => true
  | _ => false

/-- Values on which `Array.isArray` holds: sequences and
Array.prototype (itself an array exotic object). -/
def isArrB : JSValue → Bool
  | .arr _ => true
  | .protoObj ProtoKind.arrayP => true
  | _ => false

/-- A section key whose resolution removes the block: absent, an empty
sequence, or a present falsy non-sequence value. -/
def sectionFalsy : Option JSValue → Bool
  | none => true
  | some (.arr items) => items.isEmpty
  | some v => !jsTruthy v

/-- No position of the string matches the section pattern or the
variable pattern: the string contains no remaining placeholder syntax. -/
def noPlaceholderSyntax : List Char → Bool
  | [] => true
  | c :: rest =>
    (matchSectionAt (c :: rest)).isNone && (matchVarAt (c :: rest)).isNone &&
      noPlaceholderSyntax rest

/-- Rebuilding a string from its characters is the identity. -/
theorem mk_toList (s : String) : String.mk s.toList = s := rfl

/-- A failed lookup stays failed through the remaining path segments. -/
theorem resolveSegs_none (segs : List (List Char)) : resolveSegs none segs = none := by
  induction segs with
  | nil => rfl
  | cons k rest ih => simpa [resolveSegs, nestedStep] using ih

/-- Dot-splitting always produces at least one segment. -/
theorem splitDotsL_ne_nil (l : List Char) : splitDotsL l ≠ [] := by
  cases l with
  | nil => simp [splitDotsL]
  | cons c rest =>
    simp only [splitDotsL]
    split <;> simp

/-- One lookup step fails on a value without a property for the key. -/
theorem stepNone_of_noProp (v : JSValue) (k : List Char) (h : jsProp v k = none) :
    nestedStep (some v) k = none := by
  simp [nestedStep, h]

/-- One lookup step fails on a falsy value (the && of build.js line 68
short-circuits before the property access). -/
theorem stepNone_of_falsy (v : JSValue) (k : List Char) (h : jsTruthy v = false) :
    nestedStep (some v) k = none := by
  simp [nestedStep, h]

/-- A property-less step makes the rest of the path resolve to "not
found". -/
theorem resolveNone_of_noProp (v : JSValue) (k : List Char) (segs : List (List Char))
    (h : jsProp v k = none) : resolveSegs (some v) (k :: segs) = none := by
  show resolveSegs (nestedStep (some v) k) segs = none
  rw [stepNone_of_noProp v k h]
  exact resolveSegs_none segs

/-- A falsy intermediate value makes the rest of the path resolve to
"not found". -/
theorem resolveNone_of_falsy (v : JSValue) (k : List Char) (segs : List (List Char))
    (h : jsTruthy v = false) : resolveSegs (some v) (k :: segs) = none := by
  show resolveSegs (nestedStep (some v) k) segs = none
  rw [stepNone_of_falsy v k h]
  exact resolveSegs_none segs

/-- A list whose head is not a closing brace does not start with two. -/
theorem startsBB_of_ne (c : Char) (l : List Char) (h : c ≠ '}') :
    startsBB (c :: l) = false := by
  cases l with
  | nil => rfl
  | cons b t => simp [startsBB, h]

/-- Reduction of the candidate scan when the two closing braces do not
start here. -/
theorem keyCands_cons (c : Char) (rest : List Char) (h1 : isJsSpace c = false)
    (h2 : startsBB rest = false) :
    keyCands (c :: rest) = (keyCands rest).map (fun p => (c :: p.1, p.2)) := by
  simp [keyCands, h1, h2]

/-- Reduction of the candidate scan when the two closing braces start
right after the current character. -/
theorem keyCands_cons_bb (c : Char) (rest : List Char) (h1 : isJsSpace c = false)
    (h2 : startsBB rest = true) :
    keyCands (c :: rest) =
      ([ c ], rest.drop 2) :: (keyCands rest).map (fun p => (c :: p.1, p.2)) := by
  simp [keyCands, h1, h2]

/-- For a non-empty key of non-space, non-brace characters followed by
two closing braces, the shortest key candidate is exactly that key. -/
theorem keyCands_block (r : List Char) :
    ∀ (k : List Char), k ≠ [] → (∀ c ∈ k, isJsSpace c = false ∧ c ≠ '}') →
    ∃ junk, keyCands (k ++ '}' :: '}' :: r) = (k, r) :: junk := by
  intro k
  induction k with
  | nil => intro h _; exact absurd rfl h
  | cons c k' ih =>
    intro _ hch
    have hc := hch c (List.mem_cons_self _ _)
    cases k' with
    | nil =>
      refine ⟨(keyCands ('}' :: '}' :: r)).map (fun p => (c :: p.1, p.2)), ?_⟩
      rw [List.cons_append, List.nil_append,
        keyCands_cons_bb c ('}' :: '}' :: r) hc.1 (by simp [startsBB])]
      rfl
    | cons c' k'' =>
      have hch' : ∀ x ∈ c' :: k'', isJsSpace x = false ∧ x ≠ '}' :=
        fun x hx => hch x (List.mem_cons_of_mem _ hx)
      obtain ⟨junk, hj⟩ := ih (by simp) hch'
      refine ⟨junk.map (fun p => (c :: p.1, p.2)), ?_⟩
      rw [List.cons_append,
        keyCands_cons c ((c' :: k'') ++ '}' :: '}' :: r) hc.1
          (by rw [List.cons_append]; exact startsBB_of_ne c' _ (hch' c' (List.mem_cons_self _ _)).2),
        hj]
      rfl

/-- The section pattern matches a whole single-block template at
position zero, with the given key and body. -/
theorem matchSectionAt_block (k body : List Char) (h1 : k ≠ [])
    (h2 : ∀ c ∈ k, isJsSpace c = false ∧ c ≠ '}')
    (h3 : splitFirst (closeTag k) (body ++ closeTag k) = some (body, [])) :
    matchSectionAt (sectionBlock k body) = some (k, body, []) := by
  obtain ⟨junk, hj⟩ := keyCands_block (body ++ closeTag k) k h1 h2
  show firstClose (keyCands (k ++ '}' :: '}' :: (body ++ closeTag k))) = some (k, body, [])
  rw [hj]
  simp [firstClose, h3]

/-- The section pass leaves an exhausted template unchanged. -/
theorem secScan_nil (rnd : List Char → JSValue → List Char) (data : JSValue) (f : Nat) :
    secScan rnd data f [] = [] := by
  cases f <;> rfl

/-- One successful match step of the section pass. -/
theorem secScan_cons_match (rnd : List Char → JSValue → List Char) (data : JSValue)
    (f : Nat) (c : Char) (rest k body rem : List Char)
    (h : matchSectionAt (c :: rest) = some (k, body, rem)) :
    secScan rnd data (f+1) (c :: rest) =
      secRep rnd data k body ++ secScan rnd data f rem := by
  simp [secScan, h]

/-- On a single-block template the section pass is exactly the section
replacement for that block. -/
theorem secScan_block (rnd : List Char → JSValue → List Char) (data : JSValue)
    (f : Nat) (k body : List Char) (h1 : k ≠ [])
    (h2 : ∀ c ∈ k, isJsSpace c = false ∧ c ≠ '}')
    (h3 : splitFirst (closeTag k) (body ++ closeTag k) = some (body, [])) :
    secScan rnd data (f+1) (sectionBlock k body) = secRep rnd data k body := by
  have hm : matchSectionAt ('{' :: '{' :: '#' :: (k ++ '}' :: '}' :: (body ++ closeTag k))) =
      some (k, body, []) := matchSectionAt_block k body h1 h2 h3
  show secScan rnd data (f+1) ('{' :: '{' :: '#' :: (k ++ '}' :: '}' :: (body ++ closeTag k))) =
    secRep rnd data k body
  rw [secScan_cons_match rnd data f _ _ k body [] hm, secScan_nil, List.append_nil]

/-- Section replacement when the key resolves to a sequence. -/
theorem secRep_arr (rnd : List Char → JSValue → List Char) (data : JSValue)
    (k body : List Char) (l : List JSValue)
    (h : getNestedValue data k = some (JSValue.arr l)) :
    secRep rnd data k body = joinNL (l.map (secItem rnd body)) := by
  simp [secRep, h]

/-- Section replacement when the key resolves to a truthy non-sequence. -/
theorem secRep_truthy (rnd : List Char → JSValue → List Char) (data : JSValue)
    (k body : List Char) (v : JSValue) (h : getNestedValue data k = some v)
    (ht : jsTruthy v = true) (ha : isArrB v = false) :
    secRep rnd data k body = rnd body v := by
  cases v
  case protoObj pk => cases pk <;> simp_all [secRep, isArrB]
  all_goals simp_all [secRep, isArrB]

/-- Section replacement when the key is absent, resolves to an empty
sequence, or resolves to a falsy non-sequence value. -/
theorem secRep_falsy (rnd : List Char → JSValue → List Char) (data : JSValue)
    (k body : List Char) (h : sectionFalsy (getNestedValue data k) = true) :
    secRep rnd data k body = [] := by
  rcases hg : getNestedValue data k with _ | v
  · simp [secRep, hg]
  · rw [hg] at h
    cases v
    case protoObj pk => cases pk <;> simp_all [secRep, sectionFalsy, joinNL]
    all_goals simp_all [secRep, sectionFalsy, joinNL]

/-- $-expansion of a dollar-free replacement string is the identity. -/
theorem expandDollar_no_dollar (matched before after : List Char) :
    ∀ (n : Nat) (repl : List Char), repl.length ≤ n → '$' ∉ repl →
    expandDollar matched before after repl = repl := by
  intro n
  induction n with
  | zero =>
    intro repl hl _
    rw [List.length_eq_zero.mp (Nat.le_zero.mp hl)]
    rfl
  | succ n ih =>
    intro repl hl hd
    cases repl with
    | nil => rfl
    | cons c r =>
      have hc : c ≠ '$' := fun h => hd (h ▸ List.mem_cons_self _ _)
      have hr : '$' ∉ r := fun h => hd (List.mem_cons_of_mem _ h)
      have hr' := ih r (Nat.le_of_succ_le_succ (by simpa using hl)) hr
      rw [expandDollar.eq_def]
      simp [hc, hr']

/-- With a dollar-free replacement string, the source substitution and
the literal substitution described by the spec agree. -/
theorem dotScan_eq_substSelf (item : List Char) (hd : '$' ∉ item) :
    ∀ (f : Nat) (before l : List Char), dotScan item before f l = substSelf item f l := by
  intro f
  induction f with
  | zero => intro before l; rfl
  | succ f ih =>
    intro before l
    cases l with
    | nil => rfl
    | cons c rest =>
      cases h : dotPat.isPrefixOf (c :: rest) with
      | false => simp [dotScan, substSelf, h, ih]
      | true =>
        have he := expandDollar_no_dollar dotPat before (List.drop 4 rest) item.length item le_rfl hd
        simp [dotScan, substSelf, h, ih, he]

/-- `dotReplace` with a dollar-free item is the spec's literal
substitution. -/
theorem dotReplace_eq_substSelfAll (body item : List Char) (hd : '$' ∉ item) :
    dotReplace body item = substSelfAll body item :=
  dotScan_eq_substSelf item hd body.length [] body

/-- Mapping two functions that agree on the elements of a list gives the
same result. -/
theorem mapCongrMem {α β : Type} (f g : α → β) :
    ∀ (l : List α), (∀ a ∈ l, f a = g a) → l.map f = l.map g := by
  intro l
  induction l with
  | nil => intro _; rfl
  | cons a rest ih =>
    intro h
    simp only [List.map_cons, h a (List.mem_cons_self _ _),
      ih (fun x hx => h x (List.mem_cons_of_mem _ hx))]

/-- The section pass leaves a template without placeholder syntax
unchanged. -/
theorem secScan_no_match (rnd : List Char → JSValue → List Char) (data : JSValue) :
    ∀ (f : Nat) (l : List Char), noPlaceholderSyntax l = true → secScan rnd data f l = l := by
  intro f
  induction f with
  | zero => intro l _; rfl
  | succ f ih =>
    intro l h
    cases l with
    | nil => rfl
    | cons c rest =>
      simp only [noPlaceholderSyntax, Bool.and_eq_true, Option.isNone_iff_eq_none] at h
      simp [secScan, h.1.1, ih rest h.2]

/-- The variable pass leaves a template without placeholder syntax
unchanged. -/
theorem varScan_no_match (data : JSValue) :
    ∀ (f : Nat) (l : List Char), noPlaceholderSyntax l = true → varScan data f l = l := by
  intro f
  induction f with
  | zero => intro l _; rfl
  | succ f ih =>
    intro l h
    cases l with
    | nil => rfl
    | cons c rest =>
      simp only [noPlaceholderSyntax, Bool.and_eq_true, Option.isNone_iff_eq_none] at h
      simp [varScan, h.1.2, ih rest h.2]

/-- At any fuel, rendering a template without placeholder syntax is the
identity. -/
theorem renderF_no_match (f : Nat) (l : List Char) (data : JSValue)
    (h : noPlaceholderSyntax l = true) : renderF f l data = l := by
  cases f with
  | zero => rfl
  | succ f =>
    show varScanFull data (secScan (renderF f) data l.length l) = l
    rw [secScan_no_match (renderF f) data l.length l h]
    exact varScan_no_match data l.length l h

/-- C1 (amended): for a section block whose key resolves to a sequence
of string/number elements whose texts contain no dollar sign, the block
is replaced by the newline-joined bodies in which every self-reference
placeholder is replaced by the element's textual form; and rendering
the primitive-array example template against a=[1,2,3] yields
"1\n2\n3".  (As stated, without the dollar-sign proviso, the claim is
false — see the counterexample: the element's text is used as a
JavaScript replacement pattern, not literally.) -/
theorem C1_primitive_array_section :
    (∀ (rnd : List Char → JSValue → List Char) (data : JSValue) (k body : List Char)
      (l : List JSValue) (f : Nat), k ≠ [] →
      (∀ c ∈ k, isJsSpace c = false ∧ c ≠ '}') →
      splitFirst (closeTag k) (body ++ closeTag k) = some (body, []) →
      getNestedValue data k = some (JSValue.arr l) →
      (∀ it ∈ l, isPrimItem it = true) →
      (∀ it ∈ l, '$' ∉ toText it) →
      secScan rnd data (f+1) (sectionBlock k body) =
        joinNL (l.map (fun it => substSelfAll body (toText it)))) ∧
    render ("\x7b\x7b#a\x7d\x7d\x7b\x7b.\x7d\x7d\x7b\x7b/a\x7d\x7d")
      (JSValue.obj [(("a"), JSValue.arr [JSValue.num 1, JSValue.num 2, JSValue.num 3])]) =
      "1\n2\n3" := by
  constructor
  · intro rnd data k body l f h1 h2 h3 h4 h5 h6
    rw [secScan_block rnd data f k body h1 h2 h3, secRep_arr rnd data k body l h4]
    congr 1
    refine mapCongrMem _ _ l (fun it hit => ?_)
    have hp := h5 it hit
    have hd := h6 it hit
    cases it with
    | str s =>
      show dotReplace body s.toList = substSelfAll body (toText (JSValue.str s))
      exact dotReplace_eq_substSelfAll body s.toList hd
    | num n =>
      show dotReplace body (toString n).toList = substSelfAll body (toText (JSValue.num n))
      exact dotReplace_eq_substSelfAll body (toString n).toList hd
    | bool b => simp [isPrimItem] at hp
    | null => simp [isPrimItem] at hp
    | obj fs => simp [isPrimItem] at hp
    | arr xs => simp [isPrimItem] at hp
    | fn nm ar => simp [isPrimItem] at hp
    | protoObj pk => simp [isPrimItem] at hp
  · decide

/-- C1 witness: the amended general statement applied at key "a", body
the self-reference placeholder, and elements 1 and 2. -/
theorem C1_primitive_array_section_witness :
    secScan (renderF 0) (JSValue.obj [(("a"), JSValue.arr [JSValue.num 1, JSValue.num 2])]) 1
      (sectionBlock ([ 'a' ]) dotPat) = [ '1', '\n', '2' ] :=
  (C1_primitive_array_section.1 (renderF 0)
    (JSValue.obj [(("a"), JSValue.arr [JSValue.num 1, JSValue.num 2])])
    ([ 'a' ]) dotPat [JSValue.num 1, JSValue.num 2] 0
    (by decide) (by decide) (by decide) rfl (by decide) (by decide)).trans (by decide)

/-- C1 counterexample: for the string element "$&" the rendered body is
the matched placeholder text, not the element's text; the spec-literal
substitution would have produced the element's text, which differs. -/
theorem C1_dollar_counterexample :
    render ("\x7b\x7b#a\x7d\x7d\x7b\x7b.\x7d\x7d\x7b\x7b/a\x7d\x7d")
      (JSValue.obj [(("a"), JSValue.arr [JSValue.str ("$&")])]) = "\x7b\x7b.\x7d\x7d" ∧
    substSelfAll (("\x7b\x7b.\x7d\x7d").toList) (("$&").toList) = ("$&").toList ∧
    ("\x7b\x7b.\x7d\x7d" : String) ≠ ("$&" : String) :=
  ⟨by decide, by decide, by decide⟩

/-- C2: for a section block whose key resolves to a sequence of
non-primitive (mapping) elements, the block is replaced by the
newline-joined recursive renderings of the body with each element as
the new context; and rendering the object-array example template
against a=[{x:"p"},{x:"q"}] yields "p\nq". -/
theorem C2_object_array_section :
    (∀ (rnd : List Char → JSValue → List Char) (data : JSValue) (k body : List Char)
      (l : List JSValue) (f : Nat), k ≠ [] →
      (∀ c ∈ k, isJsSpace c = false ∧ c ≠ '}') →
      splitFirst (closeTag k) (body ++ closeTag k) = some (body, []) →
      getNestedValue data k = some (JSValue.arr l) →
      (∀ it ∈ l, isPrimItem it = false) →
      secScan rnd data (f+1) (sectionBlock k body) = joinNL (l.map (rnd body))) ∧
    render ("\x7b\x7b#a\x7d\x7d\x7b\x7bx\x7d\x7d\x7b\x7b/a\x7d\x7d")
      (JSValue.obj [(("a"), JSValue.arr [JSValue.obj [(("x"), JSValue.str ("p"))],
        JSValue.obj [(("x"), JSValue.str ("q"))]])]) = "p\nq" := by
  constructor
  · intro rnd data k body l f h1 h2 h3 h4 h5
    rw [secScan_block rnd data f k body h1 h2 h3, secRep_arr rnd data k body l h4]
    congr 1
    refine mapCongrMem _ _ l (fun it hit => ?_)
    have hp := h5 it hit
    cases it with
    | str s => simp [isPrimItem] at hp
    | num n => simp [isPrimItem] at hp
    | bool b => rfl
    | null => rfl
    | obj fs => rfl
    | arr xs => rfl
    | fn nm ar => rfl
    | protoObj pk => rfl
  · decide

/-- C2 witness: the general statement applied at key "a", body a
variable placeholder for x, and two one-field mapping elements. -/
theorem C2_object_array_section_witness :
    secScan (renderF 1)
      (JSValue.obj [(("a"), JSValue.arr [JSValue.obj [(("x"), JSValue.str ("p"))],
        JSValue.obj [(("x"), JSValue.str ("q"))]])]) 1
      (sectionBlock ([ 'a' ]) ([ '{', '{', 'x', '}', '}' ])) = [ 'p', '\n', 'q' ] :=
  (C2_object_array_section.1 (renderF 1)
    (JSValue.obj [(("a"), JSValue.arr [JSValue.obj [(("x"), JSValue.str ("p"))],
      JSValue.obj [(("x"), JSValue.str ("q"))]])])
    ([ 'a' ]) ([ '{', '{', 'x', '}', '}' ])
    [JSValue.obj [(("x"), JSValue.str ("p"))], JSValue.obj [(("x"), JSValue.str ("q"))]] 0
    (by decide) (by decide) (by decide) rfl (by decide)).trans (by decide)

/-- C3 (amended): a section block whose key resolves to undefined
(absent as an own entry and not an inherited built-in property), or
resolves to a falsy value (false, 0, null, empty string) or to an
empty sequence, is removed entirely: the whole single-block template
renders to the empty string; and the missing-key example renders to
"".  (As stated — "absent from the context" — the claim is false: a
key naming an inherited Object.prototype member, such as toString,
resolves to a truthy built-in function and the block is rendered; see
the counterexample.) -/
theorem C3_falsy_section_removed :
    (∀ (data : JSValue) (k body : List Char), k ≠ [] →
      (∀ c ∈ k, isJsSpace c = false ∧ c ≠ '}') →
      splitFirst (closeTag k) (body ++ closeTag k) = some (body, []) →
      sectionFalsy (getNestedValue data k) = true →
      render (String.mk (sectionBlock k body)) data = "") ∧
    render ("\x7b\x7b#missing\x7d\x7danything\x7b\x7b/missing\x7d\x7d") (JSValue.obj []) =
      "" := by
  constructor
  · intro data k body h1 h2 h3 h4
    show String.mk (varScanFull data
      (secScan (renderF (jsSize data + (sectionBlock k body).length)) data
        (sectionBlock k body).length (sectionBlock k body))) = ""
    have hlen : (sectionBlock k body).length =
        (k ++ '}' :: '}' :: (body ++ closeTag k)).length + 2 + 1 := by
      simp only [sectionBlock, List.length_cons]
    rw [hlen,
      secScan_block (renderF (jsSize data + ((k ++ '}' :: '}' :: (body ++ closeTag k)).length
        + 2 + 1))) data _ k body h1 h2 h3,
      secRep_falsy _ _ _ _ h4]
    rfl
  · decide

/-- C3 witness: the general statement applied at key "f" with body "X"
against a context binding f to false. -/
theorem C3_falsy_section_removed_witness :
    render (String.mk (sectionBlock ([ 'f' ]) ([ 'X' ])))
      (JSValue.obj [(("f"), JSValue.bool false)]) = "" :=
  C3_falsy_section_removed.1 (JSValue.obj [(("f"), JSValue.bool false)]) ([ 'f' ]) ([ 'X' ])
    (by decide) (by decide) (by decide) rfl

/-- C3 counterexample: against the empty context the key toString is
not an own entry, yet the block is not removed — the lookup finds the
inherited truthy Object.prototype.toString and the body is rendered. -/
theorem C3_prototype_counterexample :
    render ("\x7b\x7b#toString\x7d\x7dX\x7b\x7b/toString\x7d\x7d") (JSValue.obj []) = "X" ∧
    ("X" : String) ≠ "" :=
  ⟨by decide, by decide⟩

/-- C4 (amended): dotted-path lookup descends one segment at a time; a
falsy intermediate value makes any remaining path resolve to "not
found" (the && of build.js line 68 short-circuits); a mapping with
neither an own entry nor an inherited built-in property for the next
segment resolves to "not found"; a mapping with an own entry descends
into it; a truthy value with no property for the next segment resolves
to "not found"; and the nested example a.b.c renders "deep".  (As
stated — "not found as soon as the current value is not a mapping or
has no entry", and "a string, number, or boolean intermediate resolves
to not found" — the claim is false: property access also finds string
and array lengths and indices and inherited prototype members; see the
counterexample.) -/
theorem C4_nested_lookup :
    (∀ (v : JSValue) (k : List Char) (segs : List (List Char)), jsTruthy v = false →
      resolveSegs (some v) (k :: segs) = none) ∧
    (∀ (fs : List (String × JSValue)) (k : List Char) (segs : List (List Char)),
      lookupField fs k = none → k ≠ ("__proto__").toList →
      lookupField objectProtoMembers k = none →
      resolveSegs (some (JSValue.obj fs)) (k :: segs) = none) ∧
    (∀ (fs : List (String × JSValue)) (k : List Char) (v : JSValue) (segs : List (List Char)),
      lookupField fs k = some v →
      resolveSegs (some (JSValue.obj fs)) (k :: segs) = resolveSegs (some v) segs) ∧
    (∀ (v : JSValue) (k : List Char) (segs : List (List Char)), jsProp v k = none →
      resolveSegs (some v) (k :: segs) = none) ∧
    render ("\x7b\x7ba.b.c\x7d\x7d")
      (JSValue.obj [(("a"), JSValue.obj [(("b"), JSValue.obj [(("c"),
        JSValue.str ("deep"))])])]) = "deep" := by
  refine ⟨fun v k segs h => resolveNone_of_falsy v k segs h, ?_, ?_,
    fun v k segs h => resolveNone_of_noProp v k segs h, by decide⟩
  · intro fs k segs h1 h2 h3
    refine resolveNone_of_noProp (JSValue.obj fs) k segs ?_
    have h2' : ¬ (k = [ '_', '_', 'p', 'r', 'o', 't', 'o', '_', '_' ]) := h2
    simp [jsProp, h1, h2', h3]
  · intro fs k v segs h
    show resolveSegs (nestedStep (some (JSValue.obj fs)) k) segs = resolveSegs (some v) segs
    have hstep : nestedStep (some (JSValue.obj fs)) k = some v := by
      simp [nestedStep, jsTruthy, jsProp, h]
    rw [hstep]

/-- C4 witness: the four general clauses applied at concrete contexts
and paths. -/
theorem C4_nested_lookup_witness :
    resolveSegs (some (JSValue.bool false)) ([ 'x' ] :: []) = none ∧
    resolveSegs (some (JSValue.obj [(("a"), JSValue.num 1)])) ([ 'b' ] :: [[ 'c' ]]) = none ∧
    resolveSegs (some (JSValue.obj [(("a"), JSValue.num 1)])) ([ 'a' ] :: []) =
      resolveSegs (some (JSValue.num 1)) [] ∧
    resolveSegs (some (JSValue.str ("hello"))) ([ 'x' ] :: []) = none :=
  ⟨C4_nested_lookup.1 (JSValue.bool false) ([ 'x' ]) [] rfl,
   C4_nested_lookup.2.1 [(("a"), JSValue.num 1)] ([ 'b' ]) [[ 'c' ]] rfl (by decide) rfl,
   C4_nested_lookup.2.2.1 [(("a"), JSValue.num 1)] ([ 'a' ]) (JSValue.num 1) [] rfl,
   C4_nested_lookup.2.2.2.1 (JSValue.str ("hello")) ([ 'x' ]) [] rfl⟩

/-- C4 counterexample: the path a.length with a string intermediate
resolves to the string's length, and the path toString on the empty
mapping resolves to the inherited built-in function — neither is "not
found". -/
theorem C4_prototype_counterexample :
    getNestedValue (JSValue.obj [(("a"), JSValue.str ("hi"))]) (("a.length").toList) =
      some (JSValue.num 2) ∧
    (getNestedValue (JSValue.obj []) (("toString").toList)).isSome = true ∧
    getNestedValue (JSValue.obj [(("a"), JSValue.str ("hi"))]) (("a.length").toList) ≠
      none := by
  refine ⟨rfl, rfl, fun h => ?_⟩
  exact Option.noConfusion h

/-- C5: a variable placeholder whose key is not found is left verbatim
in the output (its replacement is the matched text itself); and "Hello
name-placeholder" against the empty context renders unchanged and is
stable under a second rendering. -/
theorem C5_unresolved_variable_literal :
    (∀ (data : JSValue) (k : List Char), k ≠ [ '.' ] → getNestedValue data k = none →
      varRep data k = '{' :: '{' :: (k ++ [ '}', '}' ])) ∧
    render ("Hello \x7b\x7bname\x7d\x7d") (JSValue.obj []) = "Hello \x7b\x7bname\x7d\x7d" ∧
    render (render ("Hello \x7b\x7bname\x7d\x7d") (JSValue.obj [])) (JSValue.obj []) =
      "Hello \x7b\x7bname\x7d\x7d" := by
  refine ⟨?_, by decide, by decide⟩
  intro data k hne hnf
  simp [varRep, hne, hnf]

/-- C5 witness: the general clause applied at key "n" and the empty
context. -/
theorem C5_unresolved_variable_literal_witness :
    varRep (JSValue.obj []) ([ 'n' ]) = [ '{', '{', 'n', '}', '}' ] :=
  C5_unresolved_variable_literal.1 (JSValue.obj []) ([ 'n' ]) (by decide) rfl

/-- C6 (amended): a section block whose key resolves to a present,
truthy, non-sequence value is replaced by one recursive rendering of
the body with that value as the new context; the full rendering of a
single-block template is the outer variable pass, against the outer
context, applied to that inner rendering — so variable placeholders
left unresolved by the inner context are then resolved against the
outer context's fields, found outer keys being substituted by their
textual form; and the fallback example renders "in out".  (As stated —
"lookups inside the body fall back to the outer context" — the claim
is false for section-block lookups: the inner pass removes an
absent-key block without consulting the outer context; see the
counterexample.) -/
theorem C6_truthy_section_context :
    (∀ (rnd : List Char → JSValue → List Char) (data : JSValue) (k body : List Char)
      (v : JSValue) (f : Nat), k ≠ [] →
      (∀ c ∈ k, isJsSpace c = false ∧ c ≠ '}') →
      splitFirst (closeTag k) (body ++ closeTag k) = some (body, []) →
      getNestedValue data k = some v → jsTruthy v = true → isArrB v = false →
      secScan rnd data (f+1) (sectionBlock k body) = rnd body v) ∧
    (∀ (data : JSValue) (k body : List Char) (v : JSValue), k ≠ [] →
      (∀ c ∈ k, isJsSpace c = false ∧ c ≠ '}') →
      splitFirst (closeTag k) (body ++ closeTag k) = some (body, []) →
      getNestedValue data k = some v → jsTruthy v = true → isArrB v = false →
      render (String.mk (sectionBlock k body)) data =
        String.mk (varScanFull data
          (renderF (jsSize data + (sectionBlock k body).length) body v))) ∧
    (∀ (data : JSValue) (k : List Char) (w : JSValue), k ≠ [ '.' ] →
      getNestedValue data k = some w → varRep data k = toText w) ∧
    render ("\x7b\x7b#s\x7d\x7d\x7b\x7bi\x7d\x7d \x7b\x7bo\x7d\x7d\x7b\x7b/s\x7d\x7d")
      (JSValue.obj [(("s"), JSValue.obj [(("i"), JSValue.str ("in"))]),
        (("o"), JSValue.str ("out"))]) = "in out" := by
  refine ⟨?_, ?_, ?_, by decide⟩
  · intro rnd data k body v f h1 h2 h3 h4 h5 h6
    rw [secScan_block rnd data f k body h1 h2 h3]
    exact secRep_truthy rnd data k body v h4 h5 h6
  · intro data k body v h1 h2 h3 h4 h5 h6
    show String.mk (varScanFull data
      (secScan (renderF (jsSize data + (sectionBlock k body).length)) data
        (sectionBlock k body).length (sectionBlock k body))) = _
    have hlen : (sectionBlock k body).length =
        (k ++ '}' :: '}' :: (body ++ closeTag k)).length + 2 + 1 := by
      simp only [sectionBlock, List.length_cons]
    rw [hlen,
      secScan_block (renderF (jsSize data + ((k ++ '}' :: '}' :: (body ++ closeTag k)).length
        + 2 + 1))) data _ k body h1 h2 h3,
      secRep_truthy _ data k body v h4 h5 h6]
  · intro data k w hne h
    simp [varRep, hne, h]

/-- C6 witness: the three general clauses applied at concrete inputs:
a truthy empty-mapping section value, the single-block render
equation, and the outer variable pass resolving a found key. -/
theorem C6_truthy_section_context_witness :
    secScan (renderF 0) (JSValue.obj [(("s"), JSValue.obj [])]) 1
      (sectionBlock ([ 's' ]) ([ 'B' ])) = renderF 0 ([ 'B' ]) (JSValue.obj []) ∧
    render (String.mk (sectionBlock ([ 's' ]) ([ 'B' ])))
      (JSValue.obj [(("s"), JSValue.obj [])]) =
      String.mk (varScanFull (JSValue.obj [(("s"), JSValue.obj [])])
        (renderF (jsSize (JSValue.obj [(("s"), JSValue.obj [])]) +
          (sectionBlock ([ 's' ]) ([ 'B' ])).length) ([ 'B' ]) (JSValue.obj []))) ∧
    varRep (JSValue.obj [(("o"), JSValue.str ("out"))]) ([ 'o' ]) =
      toText (JSValue.str ("out")) :=
  ⟨C6_truthy_section_context.1 (renderF 0) (JSValue.obj [(("s"), JSValue.obj [])])
     ([ 's' ]) ([ 'B' ]) (JSValue.obj []) 0 (by decide) (by decide) (by decide) rfl rfl rfl,
   C6_truthy_section_context.2.1 (JSValue.obj [(("s"), JSValue.obj [])])
     ([ 's' ]) ([ 'B' ]) (JSValue.obj []) (by decide) (by decide) (by decide) rfl rfl rfl,
   C6_truthy_section_context.2.2.1 (JSValue.obj [(("o"), JSValue.str ("out"))])
     ([ 'o' ]) (JSValue.str ("out")) (by decide) rfl⟩

/-- C6 counterexample: a nested section block whose key is absent from
the inner mapping is removed by the inner pass without consulting the
outer context: even though the outer context binds o to a truthy
value, the nested block contributes nothing and the output is empty,
not "Z". -/
theorem C6_section_no_fallback_counterexample :
    render ("\x7b\x7b#s\x7d\x7d\x7b\x7b#o\x7d\x7dZ\x7b\x7b/o\x7d\x7d\x7b\x7b/s\x7d\x7d")
      (JSValue.obj [(("s"), JSValue.obj [(("i"), JSValue.str ("in"))]),
        (("o"), JSValue.str ("out"))]) = "" ∧
    getNestedValue (JSValue.obj [(("s"), JSValue.obj [(("i"), JSValue.str ("in"))]),
      (("o"), JSValue.str ("out"))]) (("o").toList) = some (JSValue.str ("out")) ∧
    jsTruthy (JSValue.str ("out")) = true ∧
    ("" : String) ≠ "Z" :=
  ⟨by decide, rfl, rfl, by decide⟩

/-- C8: a template in which no position matches the section pattern or
the variable pattern renders to itself against every context. -/
theorem C8_no_placeholder_identity :
    ∀ (s : String) (data : JSValue), noPlaceholderSyntax s.toList = true →
    render s data = s := by
  intro s data h
  show String.mk (renderF (jsSize data + s.toList.length + 1) s.toList data) = s
  rw [renderF_no_match (jsSize data + s.toList.length + 1) s.toList data h]
  exact mk_toList s

/-- C8 witness: a placeholder-free string renders to itself. -/
theorem C8_no_placeholder_identity_witness :
    render ("hello world") (JSValue.obj []) = "hello world" :=
  C8_no_placeholder_identity ("hello world") (JSValue.obj []) (by decide)

/-- C9: the renderer is a pure function of the template and the
context: identical inputs give identical output.  (In the embedding
`render` is a total function with no effects, mirroring the source,
which performs no I/O and never writes to its arguments.) -/
theorem C9_render_deterministic :
    ∀ (t₁ t₂ : String) (d₁ d₂ : JSValue), t₁ = t₂ → d₁ = d₂ →
    render t₁ d₁ = render t₂ d₂ := by
  intro t₁ t₂ d₁ d₂ h1 h2
  rw [h1, h2]

/-- C9 witness: two identical calls at a concrete template and context
agree. -/
theorem C9_render_deterministic_witness :
    render ("x") (JSValue.obj []) = render ("x") (JSValue.obj []) :=
  C9_render_deterministic ("x") ("x") (JSValue.obj []) (JSValue.obj []) rfl rfl

/-- C10: the self-reference substitution uses the element's text as a
JavaScript replacement pattern, not literally: for the element "$&"
each self-reference position receives the matched placeholder text, so
the rendered body is the placeholder itself, which differs from the
element's text. -/
theorem C10_dollar_replacement_pattern :
    dotReplace (("\x7b\x7b.\x7d\x7d").toList) (("$&").toList) =
      ("\x7b\x7b.\x7d\x7d").toList ∧
    render ("\x7b\x7b#a\x7d\x7d\x7b\x7b.\x7d\x7d\x7b\x7b/a\x7d\x7d")
      (JSValue.obj [(("a"), JSValue.arr [JSValue.str ("$&")])]) = "\x7b\x7b.\x7d\x7d" ∧
    ("\x7b\x7b.\x7d\x7d" : String) ≠ ("$&" : String) :=
  ⟨by decide, by decide, by decide⟩

end Chronicle
